import Mathlib

/-!
# Verification of the expense-tracker data model and request handlers

Shallow embedding of `app.py` (Flask expense tracker with five tables:
`usuarios`, `categorias`, `metodos_pago`, `presupuestos`, `gastos`).
The database is modelled as lists of rows; each request handler becomes a
pure function from (actor, request data, database) to a result and a new
database.  Monetary amounts (`Float` columns in the source) are modelled
as rationals; timestamps (`DateTime`) as naturals ordered by `≤`
(SQL `BETWEEN` is inclusive on both ends).
-/

namespace GastosApp

/-- Row of table `usuarios`: id, unique username, password hash, role
(default role in the source is the string `usuario`). -/
structure Usuario where
  id : Nat
  username : String
  password : String
  rol : String
deriving Repr, DecidableEq

/-- Row of table `categorias`: id and unique name. -/
structure Categoria where
  id : Nat
  nombre : String
deriving Repr, DecidableEq

/-- Row of table `metodos_pago`: id and unique name. -/
structure MetodoPago where
  id : Nat
  nombre : String
deriving Repr, DecidableEq

/-- Row of table `presupuestos`: id, limit amount, owning user id. -/
structure Presupuesto where
  id : Nat
  monto_limite : ℚ
  usuario_id : Nat
deriving Repr, DecidableEq

/-- Row of table `gastos`: id, amount, description, creation timestamp,
owning user id, category id, payment-method id. -/
structure Gasto where
  id : Nat
  monto : ℚ
  descripcion : String
  fecha : Nat
  usuario_id : Nat
  categoria_id : Nat
  metodo_id : Nat
deriving Repr, DecidableEq

/-- The database: one list of rows per table. -/
structure DB where
  usuarios : List Usuario
  categorias : List Categoria
  metodos : List MetodoPago
  presupuestos : List Presupuesto
  gastos : List Gasto
deriving Repr, DecidableEq

def emptyDB : DB := ⟨[], [], [], [], []⟩

/-- Stand-in for werkzeug's `generate_password_hash` (password hashing is a
delegated primitive; no claim depends on its value). -/
def generate_password_hash (p : String) : String := "pbkdf2:" ++ p

/-- Next auto-increment primary key for a list of ids. -/
def nextId (ids : List Nat) : Nat := ids.foldr max 0 + 1

/-- Form data for `/agregar` and `/editar/{id}`: `request.form.get` returns
`None` (here `none`) for a missing field. -/
structure GastoForm where
  monto : Option ℚ
  descripcion : Option String
  categoria_id : Option Nat
  metodo_id : Option Nat
deriving Repr, DecidableEq

/-- `Gasto.query.get(id)`: primary-key lookup. -/
def findGasto (s : DB) (id : Nat) : Option Gasto :=
  s.gastos.find? (fun g => g.id == id)

/-- `Usuario.query.get(id)`: primary-key lookup. -/
def findUsuario (s : DB) (id : Nat) : Option Usuario :=
  s.usuarios.find? (fun u => u.id == id)

/-- `Presupuesto.query.filter_by(usuario_id=uid).first()`. -/
def findPresupuesto (s : DB) (uid : Nat) : Option Presupuesto :=
  s.presupuestos.find? (fun p => p.usuario_id == uid)

/-- `sum(g.monto for g in l)` — 0 on the empty sequence. -/
def totalMontos (l : List Gasto) : ℚ := (l.map (fun g => g.monto)).sum

/-- Insert a `Gasto` into a list sorted by descending id. -/
def insertDesc (g : Gasto) : List Gasto → List Gasto
  | [] => [g]
  | h :: t => if h.id ≤ g.id then g :: h :: t else h :: insertDesc g t

/-- `order_by(Gasto.id.desc())`: sort newest-first by id. -/
def sortByIdDesc : List Gasto → List Gasto
  | [] => []
  | h :: t => insertDesc h (sortByIdDesc t)

/-- The query built by `index` for a non-admin user: filter by owner, then
by category when `categoria_id` is supplied, then by date range when BOTH
`inicio` and `fin` are supplied (`Gasto.fecha.between` is inclusive),
finally ordered by descending id. -/
def filtered_gastos (uid : Nat) (cat : Option Nat) (inicio fin : Option Nat)
    (s : DB) : List Gasto :=
  let q := s.gastos.filter (fun g => g.usuario_id == uid)
  let q := match cat with
    | some c => q.filter (fun g => g.categoria_id == c)
    | none => q
  let q := match inicio, fin with
    | some a, some b => q.filter (fun g => a ≤ g.fecha && g.fecha ≤ b)
    | _, _ => q
  sortByIdDesc q

/-- Result of `GET /`: anonymous page, admin redirect to the dashboard, or
the rendered listing (expenses, budget limit, remaining balance). -/
inductive IndexResult where
  | anon : IndexResult
  | adminRedirect : IndexResult
  | page (gastos : List Gasto) (limite : ℚ) (saldo : ℚ) : IndexResult
deriving Repr, DecidableEq

/-- Handler `index` (`GET /`). -/
def index (actor : Option Usuario) (cat inicio fin : Option Nat) (s : DB) :
    IndexResult :=
  match actor with
  | none => .anon
  | some u =>
    if u.rol = "admin" then .adminRedirect
    else
      let mis_gastos := filtered_gastos u.id cat inicio fin s
      let total_gastado := totalMontos mis_gastos
      let limite := match findPresupuesto s u.id with
        | some p => p.monto_limite
        | none => 0
      .page mis_gastos limite (limite - total_gastado)

/-- Handler `definir_presupuesto` (`POST /definir_presupuesto`): if the
`monto` field is present, update the first budget row of the current actor
in place, or insert a new row when none exists. -/
def definir_presupuesto (actorId : Nat) (monto : Option ℚ) (s : DB) : DB :=
  match monto with
  | none => s
  | some m =>
    match findPresupuesto s actorId with
    | some p =>
      { s with presupuestos := s.presupuestos.map (fun q =>
          if q.id == p.id then { q with monto_limite := m } else q) }
    | none =>
      { s with presupuestos := s.presupuestos ++
          [⟨nextId (s.presupuestos.map (fun p => p.id)), m, actorId⟩] }

/-- Handler `agregar` (`POST /agregar`): insert a new expense for the
current actor when all four form fields are present, otherwise do nothing
(the redirect happens either way). `now` is the server-assigned timestamp. -/
def agregar (actorId : Nat) (f : GastoForm) (now : Nat) (s : DB) : DB :=
  match f.monto, f.descripcion, f.categoria_id, f.metodo_id with
  | some m, some d, some c, some mt =>
    { s with gastos := s.gastos ++
        [⟨nextId (s.gastos.map (fun g => g.id)), m, d, now, actorId, c, mt⟩] }
  | _, _, _, _ => s

/-- Handler `editar` (`POST /editar/{id}`).  `get_or_404` aborts with 404
when the id is unknown.  When the expense is owned by the actor the four
fields are written and committed; a missing field makes the request fail
with an unhandled exception (`float(None)`/`int(None)` raise `TypeError`,
a `None` description violates the NOT NULL constraint at commit), so the
transaction is never committed and the stored state is the old one.  When
the expense is not owned, nothing is touched and the handler redirects. -/
def editar (actorId : Nat) (id : Nat) (f : GastoForm) (s : DB) :
    Except String Unit × DB :=
  match findGasto s id with
  | none => (.error "404 Not Found", s)
  | some g =>
    if g.usuario_id == actorId then
      match f.monto, f.descripcion, f.categoria_id, f.metodo_id with
      | some m, some d, some c, some mt =>
        (.ok (), { s with gastos := s.gastos.map (fun x =>
          if x.id == id then
            { x with monto := m, descripcion := d,
                     categoria_id := c, metodo_id := mt }
          else x) })
      | _, _, _, _ => (.error "unhandled exception", s)
    else (.ok (), s)

/-- Handler `eliminar` (`GET /eliminar/{id}`): delete the expense when it
exists and is owned by the actor; otherwise 404 or silent redirect. -/
def eliminar (actorId : Nat) (id : Nat) (s : DB) : Except String Unit × DB :=
  match findGasto s id with
  | none => (.error "404 Not Found", s)
  | some g =>
    if g.usuario_id == actorId then
      (.ok (), { s with gastos := s.gastos.filter (fun x => !(x.id == id)) })
    else (.ok (), s)

/-- Handler `eliminar_usuario` (`GET /eliminar_usuario/{id}`): non-admins
are redirected away; an unknown id aborts with 404; deleting oneself only
flashes the error `No puedes eliminar tu propia cuenta.`; deleting another
user removes the row, and the `cascade="all, delete-orphan"` relationships
on `Usuario.gastos` and `Usuario.presupuesto` remove that user's expense
and budget rows with it. -/
def eliminar_usuario (actor : Usuario) (id : Nat) (s : DB) :
    Except String Unit × DB :=
  if actor.rol = "admin" then
    match findUsuario s id with
    | none => (.error "404 Not Found", s)
    | some u =>
      if u.id ≠ actor.id then
        (.ok (), { s with
          usuarios := s.usuarios.filter (fun x => !(x.id == u.id)),
          gastos := s.gastos.filter (fun g => !(g.usuario_id == u.id)),
          presupuestos :=
            s.presupuestos.filter (fun p => !(p.usuario_id == u.id)) })
      else (.error "No puedes eliminar tu propia cuenta.", s)
  else (.ok (), s)

/-- Handler `register` (`POST /register`): create the user when the
username is not taken (case-sensitive exact match), with the default role
`usuario`; otherwise only flash a message. -/
def register (username password : String) (s : DB) : DB :=
  if (s.usuarios.find? (fun u => u.username == username)).isSome then s
  else
    { s with usuarios := s.usuarios ++
        [⟨nextId (s.usuarios.map (fun u => u.id)), username,
          generate_password_hash password, "usuario"⟩] }

/-- Default category seed rows of `/setup` (ids as assigned by
auto-increment on an empty table). -/
def defaultCategorias : List Categoria :=
  [⟨1, "Comida"⟩, ⟨2, "Transporte"⟩, ⟨3, "Ocio"⟩, ⟨4, "Salud"⟩]

/-- Default payment-method seed rows of `/setup`. -/
def defaultMetodos : List MetodoPago :=
  [⟨1, "Efectivo"⟩, ⟨2, "Tarjeta Débito"⟩, ⟨3, "Tarjeta Crédito"⟩]

/-- Handler `setup` (`GET /setup`): create the schema, then seed the
category table when it has no row at all (`Categoria.query.first()`), the
payment-method table when it has no row at all, and the admin user when no
user named `admin` exists. -/
def setup (s : DB) : DB :=
  let cats := if s.categorias.isEmpty then defaultCategorias else s.categorias
  let mets := if s.metodos.isEmpty then defaultMetodos else s.metodos
  let usrs :=
    if (s.usuarios.find? (fun u => u.username == "admin")).isNone then
      s.usuarios ++ [⟨nextId (s.usuarios.map (fun u => u.id)), "admin",
                      generate_password_hash "admin123", "admin"⟩]
    else s.usuarios
  { s with categorias := cats, metodos := mets, usuarios := usrs }

/-- Modelled from the spec: the repository's code under `src/` has no
`/chart-data` route; the spec's route table and §4.3 describe
`category_breakdown(owner)` as a mapping `Category.name ->
sum(amount)` restricted to the owner's own expenses, derived purely from a
grouped sum over existing rows and omitting categories with zero matching
expenses. -/
def category_breakdown (ownerId : Nat) (s : DB) : List (String × ℚ) :=
  s.categorias.filterMap (fun c =>
    if (s.gastos.filter
        (fun g => g.usuario_id == ownerId && g.categoria_id == c.id)).isEmpty
    then none
    else some (c.nombre, totalMontos (s.gastos.filter
      (fun g => g.usuario_id == ownerId && g.categoria_id == c.id))))

/-- Modelled from the spec: `GET /chart-data` returns the current actor's
category breakdown as JSON `{labels, values}`. -/
def chart_data (ownerId : Nat) (s : DB) : List String × List ℚ :=
  ((category_breakdown ownerId s).map Prod.fst,
   (category_breakdown ownerId s).map Prod.snd)

/-- Number of budget rows of a given user (for the one-budget-per-user
invariant). -/
def budgetCount (uid : Nat) (s : DB) : Nat :=
  (s.presupuestos.filter (fun p => p.usuario_id == uid)).length

/-- Number of category rows carrying a given name. -/
def countCategoria (n : String) (s : DB) : Nat :=
  (s.categorias.filter (fun c => c.nombre == n)).length

/-- Number of payment-method rows carrying a given name. -/
def countMetodo (n : String) (s : DB) : Nat :=
  (s.metodos.filter (fun m => m.nombre == n)).length

/-- Number of user rows carrying a given username. -/
def countUsername (n : String) (s : DB) : Nat :=
  (s.usuarios.filter (fun u => u.username == n)).length

/-- Database states reachable from the empty database through the
mutating request handlers.  `login`/`logout` never write to the database;
a handler that fails (404, unhandled exception) leaves the committed
state equal to its pre-state, which is already reachable. -/
inductive Reachable : DB → Prop where
  | empty : Reachable emptyDB
  | step_setup {s : DB} : Reachable s → Reachable (setup s)
  | step_register {s : DB} (username password : String) :
      Reachable s → Reachable (register username password s)
  | step_agregar {s : DB} (aid : Nat) (f : GastoForm) (now : Nat) :
      Reachable s → Reachable (agregar aid f now s)
  | step_editar {s : DB} (aid gid : Nat) (f : GastoForm) :
      Reachable s → Reachable ((editar aid gid f s).2)
  | step_eliminar {s : DB} (aid gid : Nat) :
      Reachable s → Reachable ((eliminar aid gid s).2)
  | step_definir {s : DB} (aid : Nat) (m : Option ℚ) :
      Reachable s → Reachable (definir_presupuesto aid m s)
  | step_eliminar_usuario {s : DB} (actor : Usuario) (uid : Nat) :
      Reachable s → Reachable ((eliminar_usuario actor uid s).2)

/-! ## Helper lemmas -/

theorem mem_insertDesc (a g : Gasto) (l : List Gasto) :
    a ∈ insertDesc g l ↔ a = g ∨ a ∈ l := by
  induction l with
  | nil => simp [insertDesc]
  | cons h t ih =>
    by_cases hle : h.id ≤ g.id
    · simp [insertDesc, hle]
    · simp [insertDesc, hle, ih]
      tauto

theorem mem_sortByIdDesc (a : Gasto) (l : List Gasto) :
    a ∈ sortByIdDesc l ↔ a ∈ l := by
  induction l with
  | nil => simp [sortByIdDesc]
  | cons h t ih => simp [sortByIdDesc, mem_insertDesc, ih]

theorem find_admin_append (l : List Usuario) (r : Usuario)
    (hr : r.username = "admin") :
    (((l ++ [r]).find? (fun u => u.username == "admin")).isNone) = false := by
  rw [List.find?_append]
  cases h : l.find? (fun u => u.username == "admin") <;> simp [List.find?, hr]

theorem setup_idem (s : DB) : setup (setup s) = setup s := by
  by_cases hc : s.categorias.isEmpty <;>
  by_cases hm : s.metodos.isEmpty <;>
  by_cases hu : (s.usuarios.find? (fun u => u.username == "admin")).isNone <;>
    simp [setup, hc, hm, hu, defaultCategorias, defaultMetodos,
      find_admin_append]

theorem length_filter_le_one_of_nodup {α : Type} (f : α → String) (n : String)
    (l : List α) (h : (l.map f).Nodup) :
    (l.filter (fun x => f x == n)).length ≤ 1 := by
  induction l with
  | nil => simp
  | cons x t ih =>
    rw [List.map_cons, List.nodup_cons] at h
    by_cases hx : f x == n
    · have hfx : f x = n := by simpa using hx
      have ht : t.filter (fun y => f y == n) = [] := by
        apply List.filter_eq_nil_iff.mpr
        intro y hy hyn
        have hfy : f y = n := by simpa using hyn
        have : f x ∈ t.map f := by
          rw [hfx, ← hfy]
          exact List.mem_map_of_mem f hy
        exact h.1 this
      simp [List.filter, hx, ht]
    · simp only [List.filter, hx]
      exact ih h.2

theorem countCategoria_setup_le (n : String) (s : DB)
    (h : countCategoria n s ≤ 1) : countCategoria n (setup s) ≤ 1 := by
  by_cases hc : s.categorias.isEmpty
  · have hd := length_filter_le_one_of_nodup (fun c => c.nombre) n
      defaultCategorias (by decide)
    simpa [countCategoria, setup, hc] using hd
  · simpa [countCategoria, setup, hc] using h

theorem countMetodo_setup_le (n : String) (s : DB)
    (h : countMetodo n s ≤ 1) : countMetodo n (setup s) ≤ 1 := by
  by_cases hm : s.metodos.isEmpty
  · have hd := length_filter_le_one_of_nodup (fun m => m.nombre) n
      defaultMetodos (by decide)
    simpa [countMetodo, setup, hm] using hd
  · simpa [countMetodo, setup, hm] using h

theorem countUsername_setup_le (s : DB)
    (h : countUsername "admin" s ≤ 1) :
    countUsername "admin" (setup s) ≤ 1 := by
  by_cases hu : (s.usuarios.find? (fun u => u.username == "admin")).isNone
  · have h0 : s.usuarios.filter (fun u => u.username == "admin") = [] := by
      apply List.filter_eq_nil_iff.mpr
      rw [Option.isNone_iff_eq_none, List.find?_eq_none] at hu
      exact hu
    simp [countUsername, setup, hu, List.filter_append, h0, List.filter]
  · simpa [countUsername, setup, hu] using h

theorem presupuestos_setup (s : DB) : (setup s).presupuestos = s.presupuestos :=
  rfl

theorem presupuestos_register (username password : String) (s : DB) :
    (register username password s).presupuestos = s.presupuestos := by
  unfold register
  split <;> rfl

theorem presupuestos_agregar (aid : Nat) (f : GastoForm) (now : Nat) (s : DB) :
    (agregar aid f now s).presupuestos = s.presupuestos := by
  obtain ⟨fm, fd, fc, fmt⟩ := f
  cases fm <;> cases fd <;> cases fc <;> cases fmt <;> rfl

theorem presupuestos_editar (aid gid : Nat) (f : GastoForm) (s : DB) :
    (editar aid gid f s).2.presupuestos = s.presupuestos := by
  unfold editar
  split
  · rfl
  · split
    · split <;> rfl
    · rfl

theorem presupuestos_eliminar (aid gid : Nat) (s : DB) :
    (eliminar aid gid s).2.presupuestos = s.presupuestos := by
  unfold eliminar
  split
  · rfl
  · split <;> rfl

theorem budgetCount_eliminar_usuario_le (actor : Usuario) (uid w : Nat)
    (s : DB) :
    budgetCount w (eliminar_usuario actor uid s).2 ≤ budgetCount w s := by
  unfold eliminar_usuario budgetCount
  split
  · split
    · exact Nat.le_refl _
    · split
      · exact List.Sublist.length_le
          (List.Sublist.filter _ (List.filter_sublist _))
      · exact Nat.le_refl _
  · exact Nat.le_refl _

theorem budgetCount_definir_le (uid : Nat) (m : Option ℚ) (w : Nat) (s : DB)
    (hw : budgetCount w s ≤ 1) :
    budgetCount w (definir_presupuesto uid m s) ≤ 1 := by
  match m with
  | none => simpa [definir_presupuesto] using hw
  | some m =>
    cases hf : findPresupuesto s uid with
    | some p =>
      have hcount :
          budgetCount w (definir_presupuesto uid (some m) s) =
            budgetCount w s := by
        simp only [definir_presupuesto, hf, budgetCount]
        rw [List.filter_map, List.length_map]
        congr 1
        apply List.filter_congr
        intro q _
        by_cases hid : q.id = p.id <;> simp [hid]
      rw [hcount]
      exact hw
    | none =>
      simp only [definir_presupuesto, hf, budgetCount, List.filter_append]
      by_cases huid : uid == w
      · have h0 : s.presupuestos.filter (fun p => p.usuario_id == w) = [] := by
          apply List.filter_eq_nil_iff.mpr
          intro q hq hqw
          have huid2 : uid = w := by simpa using huid
          have := List.find?_eq_none.mp hf q hq
          rw [huid2] at this
          exact this hqw
        simp [h0, List.filter, huid]
      · simp only [List.filter, huid]
        simpa using hw

theorem budget_invariant_of_reachable {s : DB} (h : Reachable s) (w : Nat) :
    budgetCount w s ≤ 1 := by
  induction h with
  | empty => simp [budgetCount, emptyDB]
  | step_setup _ ih =>
    unfold budgetCount
    rw [presupuestos_setup]
    exact ih
  | step_register username password _ ih =>
    unfold budgetCount
    rw [presupuestos_register]
    exact ih
  | step_agregar aid f now _ ih =>
    unfold budgetCount
    rw [presupuestos_agregar]
    exact ih
  | step_editar aid gid f _ ih =>
    unfold budgetCount
    rw [presupuestos_editar]
    exact ih
  | step_eliminar aid gid _ ih =>
    unfold budgetCount
    rw [presupuestos_eliminar]
    exact ih
  | step_definir aid m _ ih =>
    exact budgetCount_definir_le aid m w _ ih
  | step_eliminar_usuario actor uid _ ih =>
    exact Nat.le_trans (budgetCount_eliminar_usuario_le actor uid w _) ih

/-! ## Claims -/

/-- C1: for every actor `aid` and every expense `g` whose owner is not
`aid`, the edit request (`/editar/{id}`) and the delete request
(`/eliminar/{id}`) on `g` change no state: the database is unchanged and
`g` still exists with all its fields intact. -/
theorem c1_foreign_expense_requests_are_noops
    (s : DB) (aid gid : Nat) (f : GastoForm) (g : Gasto)
    (hfind : findGasto s gid = some g)
    (hown : g.usuario_id ≠ aid) :
    (editar aid gid f s).2 = s ∧ (eliminar aid gid s).2 = s ∧
    g ∈ (editar aid gid f s).2.gastos ∧ g ∈ (eliminar aid gid s).2.gastos := by
  have hmem : g ∈ s.gastos := List.mem_of_find?_eq_some hfind
  have he : (editar aid gid f s).2 = s := by
    simp [editar, hfind, hown]
  have hd : (eliminar aid gid s).2 = s := by
    simp [eliminar, hfind, hown]
  refine ⟨he, hd, ?_, ?_⟩
  · rw [he]; exact hmem
  · rw [hd]; exact hmem

/-- C1 witness: a concrete actor (id 2) editing and deleting expense 1,
which is owned by user 1. -/
theorem c1_witness :
    (editar 2 1 ⟨some 5, some "y", some 1, some 1⟩
        ⟨[], [], [], [], [⟨1, 30, "a", 0, 1, 1, 1⟩]⟩).2 =
      ⟨[], [], [], [], [⟨1, 30, "a", 0, 1, 1, 1⟩]⟩ ∧
    (eliminar 2 1 ⟨[], [], [], [], [⟨1, 30, "a", 0, 1, 1, 1⟩]⟩).2 =
      ⟨[], [], [], [], [⟨1, 30, "a", 0, 1, 1, 1⟩]⟩ ∧
    (⟨1, 30, "a", 0, 1, 1, 1⟩ : Gasto) ∈
      (editar 2 1 ⟨some 5, some "y", some 1, some 1⟩
        ⟨[], [], [], [], [⟨1, 30, "a", 0, 1, 1, 1⟩]⟩).2.gastos ∧
    (⟨1, 30, "a", 0, 1, 1, 1⟩ : Gasto) ∈
      (eliminar 2 1 ⟨[], [], [], [], [⟨1, 30, "a", 0, 1, 1, 1⟩]⟩).2.gastos :=
  c1_foreign_expense_requests_are_noops _ 2 1 _ _ (by rfl) (by decide)

/-- C2: after an admin deletes user `u` via `/eliminar_usuario/{id}`, no
expense owned by `u` remains, no budget row of `u` remains, and the
filtered expense listing for `u.id` is empty. -/
theorem c2_delete_user_cascades
    (s : DB) (actor : Usuario) (uid : Nat) (u : Usuario)
    (hadmin : actor.rol = "admin")
    (hfind : findUsuario s uid = some u)
    (hne : u.id ≠ actor.id) :
    (∀ g ∈ (eliminar_usuario actor uid s).2.gastos, g.usuario_id ≠ u.id) ∧
    (∀ p ∈ (eliminar_usuario actor uid s).2.presupuestos,
        p.usuario_id ≠ u.id) ∧
    filtered_gastos u.id none none none (eliminar_usuario actor uid s).2 = [] := by
  have hs2 : (eliminar_usuario actor uid s).2 =
      { s with
        usuarios := s.usuarios.filter (fun x => !(x.id == u.id)),
        gastos := s.gastos.filter (fun g => !(g.usuario_id == u.id)),
        presupuestos :=
          s.presupuestos.filter (fun p => !(p.usuario_id == u.id)) } := by
    simp [eliminar_usuario, hadmin, hfind, hne]
  rw [hs2]
  refine ⟨?_, ?_, ?_⟩
  · intro g hg
    simpa using (List.mem_filter.mp hg).2
  · intro p hp
    simpa using (List.mem_filter.mp hp).2
  · show sortByIdDesc _ = []
    rw [List.filter_filter]
    have : ∀ g ∈ s.gastos,
        ¬((g.usuario_id == u.id) && !(g.usuario_id == u.id)) = true := by
      intro g _; cases hgu : g.usuario_id == u.id <;> simp [hgu]
    rw [List.filter_eq_nil_iff.mpr this]
    rfl

/-- C2 witness: a concrete admin (id 9) deleting user 1, who owns an
expense and a budget row. -/
theorem c2_witness :
    (∀ g ∈ (eliminar_usuario ⟨9, "admin", "h", "admin"⟩ 1
        ⟨[⟨9, "admin", "h", "admin"⟩, ⟨1, "u1", "h", "usuario"⟩], [], [],
         [⟨1, 50, 1⟩], [⟨1, 30, "a", 0, 1, 1, 1⟩]⟩).2.gastos,
      g.usuario_id ≠ 1) ∧
    (∀ p ∈ (eliminar_usuario ⟨9, "admin", "h", "admin"⟩ 1
        ⟨[⟨9, "admin", "h", "admin"⟩, ⟨1, "u1", "h", "usuario"⟩], [], [],
         [⟨1, 50, 1⟩], [⟨1, 30, "a", 0, 1, 1, 1⟩]⟩).2.presupuestos,
      p.usuario_id ≠ 1) ∧
    filtered_gastos 1 none none none
      (eliminar_usuario ⟨9, "admin", "h", "admin"⟩ 1
        ⟨[⟨9, "admin", "h", "admin"⟩, ⟨1, "u1", "h", "usuario"⟩], [], [],
         [⟨1, 50, 1⟩], [⟨1, 30, "a", 0, 1, 1, 1⟩]⟩).2 = [] :=
  c2_delete_user_cascades _ _ 1 ⟨1, "u1", "h", "usuario"⟩
    (by rfl) (by rfl) (by decide)

/-- C3: the date-range filter of the expense listing applies only when
both bounds are present — with a single bound the listing is exactly the
no-bounds listing — and with both bounds present it is the inclusive
bound test `inicio ≤ fecha ≤ fin` on the creation timestamp. -/
theorem c3_date_filter_both_or_neither
    (uid : Nat) (cat : Option Nat) (x a b : Nat) (s : DB) :
    filtered_gastos uid cat (some x) none s =
      filtered_gastos uid cat none none s ∧
    filtered_gastos uid cat none (some x) s =
      filtered_gastos uid cat none none s ∧
    (∀ g : Gasto, g ∈ filtered_gastos uid cat (some a) (some b) s ↔
      (g ∈ filtered_gastos uid cat none none s ∧
        a ≤ g.fecha ∧ g.fecha ≤ b)) := by
  refine ⟨rfl, rfl, ?_⟩
  intro g
  cases cat <;>
  · simp [filtered_gastos, mem_sortByIdDesc, List.mem_filter, and_assoc]
    tauto

/-- C4 counterexample: from a state holding a single non-default category
`Otra`, two invocations of `/setup` leave zero rows named `Comida` — not
exactly one — because the seeding check (`Categoria.query.first()`) is
per-table, not per-name. -/
theorem c4_counterexample :
    countCategoria "Comida"
        (setup (setup ⟨[], [⟨1, "Otra"⟩], [], [], []⟩)) = 0 ∧
    ¬ countCategoria "Comida"
        (setup (setup ⟨[], [⟨1, "Otra"⟩], [], [], []⟩)) = 1 := by decide

/-- C4 (amended): `/setup` is idempotent — a second invocation changes
nothing at all, so it never produces duplicate seed rows, and each seed
name's row count stays at most one whenever it was at most one; invoked
twice from the empty database it leaves exactly one user row with the
admin username and exactly one row per default Category and PaymentMethod
name. -/
theorem c4_setup_idempotent :
    (∀ s : DB, setup (setup s) = setup s) ∧
    (∀ (s : DB) (n : String),
      countCategoria n s ≤ 1 → countCategoria n (setup s) ≤ 1) ∧
    (∀ (s : DB) (n : String),
      countMetodo n s ≤ 1 → countMetodo n (setup s) ≤ 1) ∧
    (∀ s : DB,
      countUsername "admin" s ≤ 1 → countUsername "admin" (setup s) ≤ 1) ∧
    (countUsername "admin" (setup (setup emptyDB)) = 1 ∧
     countCategoria "Comida" (setup (setup emptyDB)) = 1 ∧
     countCategoria "Transporte" (setup (setup emptyDB)) = 1 ∧
     countCategoria "Ocio" (setup (setup emptyDB)) = 1 ∧
     countCategoria "Salud" (setup (setup emptyDB)) = 1 ∧
     countMetodo "Efectivo" (setup (setup emptyDB)) = 1 ∧
     countMetodo "Tarjeta Débito" (setup (setup emptyDB)) = 1 ∧
     countMetodo "Tarjeta Crédito" (setup (setup emptyDB)) = 1) :=
  ⟨setup_idem, fun s n => countCategoria_setup_le n s,
   fun s n => countMetodo_setup_le n s, countUsername_setup_le,
   by decide⟩

/-- C4 witness: the idempotence and count-preservation parts applied to
the empty database and the name `Comida`. -/
theorem c4_witness :
    setup (setup emptyDB) = setup emptyDB ∧
    countCategoria "Comida" (setup emptyDB) ≤ 1 :=
  ⟨c4_setup_idempotent.1 emptyDB,
   c4_setup_idempotent.2.1 emptyDB "Comida" (by decide)⟩

/-- C5: an admin's request to delete their own user row is rejected — the
state is unchanged, the handler flashes the error message, and the admin's
row still exists — while an admin's request to delete any other existing
user succeeds: the handler reports success and no row with the target's id
remains. -/
theorem c5_admin_user_deletion (s : DB) (actor u : Usuario) (uid : Nat)
    (hadmin : actor.rol = "admin")
    (hfind : findUsuario s uid = some u) :
    (u.id = actor.id →
      (eliminar_usuario actor uid s).2 = s ∧
      (eliminar_usuario actor uid s).1 =
        .error "No puedes eliminar tu propia cuenta." ∧
      u ∈ (eliminar_usuario actor uid s).2.usuarios) ∧
    (u.id ≠ actor.id →
      (eliminar_usuario actor uid s).1 = .ok () ∧
      ∀ v ∈ (eliminar_usuario actor uid s).2.usuarios, v.id ≠ u.id) := by
  have hmem : u ∈ s.usuarios := List.mem_of_find?_eq_some hfind
  constructor
  · intro hself
    have h2 : (eliminar_usuario actor uid s).2 = s := by
      simp [eliminar_usuario, hadmin, hfind, hself]
    refine ⟨h2, ?_, ?_⟩
    · simp [eliminar_usuario, hadmin, hfind, hself]
    · rw [h2]; exact hmem
  · intro hne
    refine ⟨by simp [eliminar_usuario, hadmin, hfind, hne], ?_⟩
    intro v hv
    simp only [eliminar_usuario, hadmin, if_true, hfind, hne] at hv
    simp only [if_pos hne] at hv
    simpa using (List.mem_filter.mp hv).2

/-- C5 witness: admin (id 9) deleting itself is rejected; admin deleting
user 1 succeeds. -/
theorem c5_witness :
    ((9 : Nat) = 9 →
      (eliminar_usuario ⟨9, "admin", "h", "admin"⟩ 9
        ⟨[⟨9, "admin", "h", "admin"⟩, ⟨1, "u1", "h", "usuario"⟩],
         [], [], [], []⟩).2 =
        ⟨[⟨9, "admin", "h", "admin"⟩, ⟨1, "u1", "h", "usuario"⟩],
         [], [], [], []⟩ ∧
      (eliminar_usuario ⟨9, "admin", "h", "admin"⟩ 9
        ⟨[⟨9, "admin", "h", "admin"⟩, ⟨1, "u1", "h", "usuario"⟩],
         [], [], [], []⟩).1 =
        .error "No puedes eliminar tu propia cuenta." ∧
      (⟨9, "admin", "h", "admin"⟩ : Usuario) ∈
        (eliminar_usuario ⟨9, "admin", "h", "admin"⟩ 9
          ⟨[⟨9, "admin", "h", "admin"⟩, ⟨1, "u1", "h", "usuario"⟩],
           [], [], [], []⟩).2.usuarios) ∧
    ((9 : Nat) ≠ 9 →
      (eliminar_usuario ⟨9, "admin", "h", "admin"⟩ 9
        ⟨[⟨9, "admin", "h", "admin"⟩, ⟨1, "u1", "h", "usuario"⟩],
         [], [], [], []⟩).1 = .ok () ∧
      ∀ v ∈ (eliminar_usuario ⟨9, "admin", "h", "admin"⟩ 9
          ⟨[⟨9, "admin", "h", "admin"⟩, ⟨1, "u1", "h", "usuario"⟩],
           [], [], [], []⟩).2.usuarios, v.id ≠ 9) :=
  c5_admin_user_deletion
    ⟨[⟨9, "admin", "h", "admin"⟩, ⟨1, "u1", "h", "usuario"⟩], [], [], [], []⟩
    ⟨9, "admin", "h", "admin"⟩ ⟨9, "admin", "h", "admin"⟩ 9
    (by rfl) (by rfl)

/-- C6: for a logged-in non-admin user with a budget row, the listing's
remaining balance is the budget limit minus the sum of the filtered
expense amounts; the sum of no expenses is 0; and the balance is not
clamped at zero: limit 100 with amounts [30, 20] gives 50, and with
[60, 60] gives -20. -/
theorem c6_saldo_is_limit_minus_total :
    (∀ (s : DB) (u : Usuario) (cat i f : Option Nat) (p : Presupuesto),
      u.rol ≠ "admin" → findPresupuesto s u.id = some p →
      index (some u) cat i f s =
        .page (filtered_gastos u.id cat i f s) p.monto_limite
          (p.monto_limite - totalMontos (filtered_gastos u.id cat i f s))) ∧
    totalMontos [] = 0 ∧
    index (some ⟨1, "u1", "h", "usuario"⟩) none none none
        ⟨[⟨1, "u1", "h", "usuario"⟩], [], [], [⟨1, 100, 1⟩],
         [⟨1, 30, "a", 0, 1, 1, 1⟩, ⟨2, 20, "b", 1, 1, 1, 1⟩]⟩ =
      .page [⟨2, 20, "b", 1, 1, 1, 1⟩, ⟨1, 30, "a", 0, 1, 1, 1⟩] 100 50 ∧
    index (some ⟨1, "u1", "h", "usuario"⟩) none none none
        ⟨[⟨1, "u1", "h", "usuario"⟩], [], [], [⟨1, 100, 1⟩],
         [⟨1, 60, "a", 0, 1, 1, 1⟩, ⟨2, 60, "b", 1, 1, 1, 1⟩]⟩ =
      .page [⟨2, 60, "b", 1, 1, 1, 1⟩, ⟨1, 60, "a", 0, 1, 1, 1⟩]
        100 (-20) := by
  refine ⟨?_, rfl, ?_, ?_⟩
  · intro s u cat i f p hrol hp
    simp [index, hrol, hp]
  · simp [index, findPresupuesto, List.find?, filtered_gastos, List.filter,
      sortByIdDesc, insertDesc, totalMontos]
    norm_num
  · simp [index, findPresupuesto, List.find?, filtered_gastos, List.filter,
      sortByIdDesc, insertDesc, totalMontos]
    norm_num

/-- C6 witness: the general balance equation applied to the concrete
overspent state (limit 100, expenses 60 and 60). -/
theorem c6_witness :
    index (some ⟨1, "u1", "h", "usuario"⟩) none none none
        ⟨[⟨1, "u1", "h", "usuario"⟩], [], [], [⟨1, 100, 1⟩],
         [⟨1, 60, "a", 0, 1, 1, 1⟩, ⟨2, 60, "b", 1, 1, 1, 1⟩]⟩ =
      .page
        (filtered_gastos 1 none none none
          ⟨[⟨1, "u1", "h", "usuario"⟩], [], [], [⟨1, 100, 1⟩],
           [⟨1, 60, "a", 0, 1, 1, 1⟩, ⟨2, 60, "b", 1, 1, 1, 1⟩]⟩)
        100
        (100 - totalMontos (filtered_gastos 1 none none none
          ⟨[⟨1, "u1", "h", "usuario"⟩], [], [], [⟨1, 100, 1⟩],
           [⟨1, 60, "a", 0, 1, 1, 1⟩, ⟨2, 60, "b", 1, 1, 1, 1⟩]⟩)) :=
  c6_saldo_is_limit_minus_total.1 _ ⟨1, "u1", "h", "usuario"⟩
    none none none ⟨1, 100, 1⟩ (by decide) (by rfl)

/-- C7: `/definir_presupuesto` has upsert semantics — with no existing
budget row a single new row with the submitted limit is appended, with an
existing row that row's limit is overwritten in place — it preserves the
at-most-one-budget-row-per-user bound, and in every reachable state every
user has at most one budget row. -/
theorem c7_presupuesto_upsert :
    (∀ (s : DB) (uid : Nat) (m : ℚ), findPresupuesto s uid = none →
      (definir_presupuesto uid (some m) s).presupuestos =
        s.presupuestos ++
          [⟨nextId (s.presupuestos.map (fun p => p.id)), m, uid⟩]) ∧
    (∀ (s : DB) (uid : Nat) (m : ℚ) (p : Presupuesto),
      findPresupuesto s uid = some p →
      (definir_presupuesto uid (some m) s).presupuestos =
        s.presupuestos.map (fun q =>
          if q.id == p.id then { q with monto_limite := m } else q)) ∧
    (∀ (s : DB) (uid : Nat) (m : Option ℚ) (w : Nat),
      budgetCount w s ≤ 1 →
      budgetCount w (definir_presupuesto uid m s) ≤ 1) ∧
    (∀ s : DB, Reachable s → ∀ w : Nat, budgetCount w s ≤ 1) := by
  refine ⟨?_, ?_, ?_, ?_⟩
  · intro s uid m h
    simp [definir_presupuesto, h]
  · intro s uid m p h
    simp [definir_presupuesto, h]
  · intro s uid m w hw
    exact budgetCount_definir_le uid m w s hw
  · intro s hs w
    exact budget_invariant_of_reachable hs w

/-- C7 witness: setting a budget of 50 for user 1 on the empty database
creates exactly one row, and the per-user budget count stays at most 1,
also in the reachable state the operation produces. -/
theorem c7_witness :
    (definir_presupuesto 1 (some 50) emptyDB).presupuestos =
      emptyDB.presupuestos ++
        [⟨nextId (emptyDB.presupuestos.map (fun p => p.id)), 50, 1⟩] ∧
    budgetCount 1 (definir_presupuesto 1 (some 50) emptyDB) ≤ 1 :=
  ⟨c7_presupuesto_upsert.1 emptyDB 1 50 (by rfl),
   c7_presupuesto_upsert.2.2.2 (definir_presupuesto 1 (some 50) emptyDB)
     (Reachable.step_definir 1 (some 50) Reachable.empty) 1⟩

/-- C8 (modelled from the spec — `src/app.py` has no `/chart-data`
route): `/chart-data` returns the labels and values of the actor's
category breakdown; every breakdown entry pairs a category name with the
sum of the actor's own expense amounts in that category, restricted to
categories with at least one matching expense; a category with zero
matching expenses contributes no label (no zero-padding). -/
theorem c8_chart_data_breakdown (s : DB) (uid : Nat)
    (hnames : (s.categorias.map (fun c => c.nombre)).Nodup) :
    chart_data uid s =
      ((category_breakdown uid s).map Prod.fst,
       (category_breakdown uid s).map Prod.snd) ∧
    (∀ c ∈ s.categorias,
      (s.gastos.filter
          (fun g => g.usuario_id == uid && g.categoria_id == c.id) ≠ [] →
        (c.nombre, totalMontos (s.gastos.filter
            (fun g => g.usuario_id == uid && g.categoria_id == c.id))) ∈
          category_breakdown uid s) ∧
      (s.gastos.filter
          (fun g => g.usuario_id == uid && g.categoria_id == c.id) = [] →
        c.nombre ∉ (chart_data uid s).1)) ∧
    (∀ x ∈ category_breakdown uid s, ∃ c ∈ s.categorias,
      x = (c.nombre, totalMontos (s.gastos.filter
        (fun g => g.usuario_id == uid && g.categoria_id == c.id))) ∧
      s.gastos.filter
        (fun g => g.usuario_id == uid && g.categoria_id == c.id) ≠ []) := by
  refine ⟨rfl, ?_, ?_⟩
  · intro c hc
    constructor
    · intro hne
      apply List.mem_filterMap.mpr
      refine ⟨c, hc, ?_⟩
      rw [if_neg]
      simpa [List.isEmpty_iff] using hne
    · intro hemp hmem
      obtain ⟨x, hx, hfst⟩ := List.mem_map.mp hmem
      obtain ⟨c', hc', hfc'⟩ := List.mem_filterMap.mp hx
      by_cases he' : (s.gastos.filter
          (fun g => g.usuario_id == uid && g.categoria_id == c'.id)).isEmpty
      · rw [if_pos he'] at hfc'
        cases hfc'
      · rw [if_neg he'] at hfc'
        cases hfc'
        have hcc : c' = c :=
          List.inj_on_of_nodup_map hnames hc' hc hfst
        rw [hcc, hemp] at he'
        exact he' rfl
  · intro x hx
    obtain ⟨c, hc, hfc⟩ := List.mem_filterMap.mp hx
    by_cases he : (s.gastos.filter
        (fun g => g.usuario_id == uid && g.categoria_id == c.id)).isEmpty
    · rw [if_pos he] at hfc
      cases hfc
    · rw [if_neg he] at hfc
      cases hfc
      refine ⟨c, hc, rfl, ?_⟩
      intro h0
      rw [h0] at he
      exact he rfl

/-- C8 witness: the breakdown equations at a concrete state with
categories `A` and `B` and a single expense in `A`. -/
theorem c8_witness :
    chart_data 1 ⟨[⟨1, "u1", "h", "usuario"⟩], [⟨1, "A"⟩, ⟨2, "B"⟩], [], [],
        [⟨1, 30, "a", 0, 1, 1, 1⟩]⟩ =
      ((category_breakdown 1 ⟨[⟨1, "u1", "h", "usuario"⟩],
          [⟨1, "A"⟩, ⟨2, "B"⟩], [], [],
          [⟨1, 30, "a", 0, 1, 1, 1⟩]⟩).map Prod.fst,
       (category_breakdown 1 ⟨[⟨1, "u1", "h", "usuario"⟩],
          [⟨1, "A"⟩, ⟨2, "B"⟩], [], [],
          [⟨1, 30, "a", 0, 1, 1, 1⟩]⟩).map Prod.snd) :=
  (c8_chart_data_breakdown
    ⟨[⟨1, "u1", "h", "usuario"⟩], [⟨1, "A"⟩, ⟨2, "B"⟩], [], [],
     [⟨1, 30, "a", 0, 1, 1, 1⟩]⟩ 1 (by decide)).1

/-- C9 counterexample: editing an owned expense with the `monto` form
field missing is NOT silently ignored — the request fails (in the source,
`float(None)` raises an unhandled `TypeError`). -/
theorem c9_counterexample :
    (editar 1 1 ⟨none, some "y", some 1, some 1⟩
      ⟨[⟨1, "u1", "h", "usuario"⟩], [⟨1, "Comida"⟩], [⟨1, "Efectivo"⟩], [],
       [⟨1, 10, "x", 0, 1, 1, 1⟩]⟩).1 = .error "unhandled exception" := rfl

/-- C9 (amended): creation (`/agregar`) with a missing required form
field is silently ignored and leaves the stored expenses unchanged, but
an edit (`/editar/{id}`) of an owned expense with a missing required
field fails with an unhandled error rather than being silently ignored;
the committed expense rows are unchanged in both cases. -/
theorem c9_missing_field_handling :
    (∀ (aid now : Nat) (f : GastoForm) (s : DB),
      (f.monto = none ∨ f.descripcion = none ∨ f.categoria_id = none ∨
        f.metodo_id = none) →
      agregar aid f now s = s) ∧
    (∀ (aid gid : Nat) (f : GastoForm) (s : DB) (g : Gasto),
      findGasto s gid = some g → g.usuario_id = aid →
      (f.monto = none ∨ f.descripcion = none ∨ f.categoria_id = none ∨
        f.metodo_id = none) →
      (editar aid gid f s).1 = .error "unhandled exception" ∧
      (editar aid gid f s).2 = s) := by
  constructor
  · rintro aid now ⟨fm, fd, fc, fmt⟩ s h
    cases fm <;> cases fd <;> cases fc <;> cases fmt <;>
      simp_all [agregar]
  · rintro aid gid ⟨fm, fd, fc, fmt⟩ s g hfind hown h
    cases fm <;> cases fd <;> cases fc <;> cases fmt <;>
      simp_all [editar, hfind, hown]

/-- C9 witness: concrete instances of both parts — an add with no
description is ignored, an owned edit with no amount fails with the state
intact. -/
theorem c9_witness :
    agregar 1 ⟨some 5, none, some 1, some 1⟩ 0 emptyDB = emptyDB ∧
    ((editar 1 1 ⟨none, some "y", some 1, some 1⟩
        ⟨[⟨1, "u1", "h", "usuario"⟩], [], [], [],
         [⟨1, 10, "x", 0, 1, 1, 1⟩]⟩).1 = .error "unhandled exception" ∧
     (editar 1 1 ⟨none, some "y", some 1, some 1⟩
        ⟨[⟨1, "u1", "h", "usuario"⟩], [], [], [],
         [⟨1, 10, "x", 0, 1, 1, 1⟩]⟩).2 =
       ⟨[⟨1, "u1", "h", "usuario"⟩], [], [], [],
        [⟨1, 10, "x", 0, 1, 1, 1⟩]⟩) :=
  ⟨c9_missing_field_handling.1 1 0 ⟨some 5, none, some 1, some 1⟩ emptyDB
    (Or.inr (Or.inl rfl)),
   c9_missing_field_handling.2 1 1 ⟨none, some "y", some 1, some 1⟩
    ⟨[⟨1, "u1", "h", "usuario"⟩], [], [], [],
     [⟨1, 10, "x", 0, 1, 1, 1⟩]⟩ ⟨1, 10, "x", 0, 1, 1, 1⟩
    (by rfl) (by rfl) (Or.inl rfl)⟩

/-- C10: for a logged-in non-admin user with no budget row, the listing
uses limit 0, so the displayed balance is the negation of the filtered
total spending. -/
theorem c10_missing_budget_defaults_to_zero (s : DB) (u : Usuario)
    (cat i f : Option Nat)
    (hrol : u.rol ≠ "admin")
    (hnone : findPresupuesto s u.id = none) :
    index (some u) cat i f s =
      .page (filtered_gastos u.id cat i f s) 0
        (-(totalMontos (filtered_gastos u.id cat i f s))) := by
  simp [index, hrol, hnone, zero_sub]

/-- C10 witness: a concrete budgetless user with one expense of 30. -/
theorem c10_witness :
    index (some ⟨1, "u1", "h", "usuario"⟩) none none none
        ⟨[⟨1, "u1", "h", "usuario"⟩], [], [], [],
         [⟨1, 30, "a", 0, 1, 1, 1⟩]⟩ =
      .page
        (filtered_gastos 1 none none none
          ⟨[⟨1, "u1", "h", "usuario"⟩], [], [], [],
           [⟨1, 30, "a", 0, 1, 1, 1⟩]⟩)
        0
        (-(totalMontos (filtered_gastos 1 none none none
          ⟨[⟨1, "u1", "h", "usuario"⟩], [], [], [],
           [⟨1, 30, "a", 0, 1, 1, 1⟩]⟩))) :=
  c10_missing_budget_defaults_to_zero _ ⟨1, "u1", "h", "usuario"⟩
    none none none (by decide) (by rfl)

end GastosApp
